import Mathlib

/-!
# Verification of the ride booking and payment reconciliation server

This development shallowly embeds the request handlers of `src/server/server.js`
(together with the relational schema of the SQL migration file) and proves or
refutes the specified properties of seat allocation, payment settlement, ride
code generation, and the audit/notification side effects.

Modelling conventions:
* The Supabase tables become lists of records inside a `DB` structure; an
  insert appends, an `update ... eq` maps over the list, and row ids issued by
  the store are modelled with a `nextId` counter.
* `Math.random()` is modelled by a stream `rand : Nat → Nat` giving the value
  of `Math.floor(Math.random() * chars.length)` at the i-th call, which is
  always `< 36` because `Math.random()` lies in `[0, 1)`.
* Each `await` on a store or provider call is a yield point of the Node event
  loop, so steps of two concurrently running handlers may interleave at those
  points; the join handler is therefore factored into its read phase
  (`findRide`) and its write phase (`joinCommit`), exactly the two sides of
  the handler's await boundary.
* Exceptions of a handler are modelled by the response produced by its
  `catch` block together with the store writes already awaited before the
  throw (those are committed individually; there is no transaction).
* The Stripe client is a parameter: `retrieve` models
  `stripe.checkout.sessions.retrieve` (`none` = throw) and `verify` models
  `stripe.webhooks.constructEvent` (`none` = invalid signature, which throws).
* `jsonb` metadata payloads of notifications/history rows are not modelled;
  only the fields the properties mention are kept.
-/

/-- A row of the `rides` table, with the fields written by the server. -/
structure Ride where
  id : Nat
  createdBy : Nat
  title : String
  origin : String
  destination : String
  departureTime : String
  totalSeats : Int
  seatsLeft : Int
  pricePerSeat : Int
  rideCode : String
  status : String
  deriving Repr, DecidableEq

/-- A row of the `ride_participants` table. -/
structure Participant where
  id : Nat
  rideId : Nat
  userId : Nat
  joinCode : String
  amountDue : Option Int
  amountPaid : Int
  paid : Bool
  stripeSessionId : Option String
  deriving Repr, DecidableEq

/-- A row of the `payments` table. -/
structure Payment where
  userId : Nat
  rideId : Nat
  amount : Int
  currency : String
  stripeSessionId : Option String
  stripePaymentIntentId : Option String
  status : String
  deriving Repr, DecidableEq

/-- A row of the `ride_codes` table (`ride_id` is UNIQUE in the schema). -/
structure RideCode where
  rideId : Nat
  code : String
  deriving Repr, DecidableEq

/-- A row of the `notifications` table (append-only audit side effect). -/
structure Notification where
  userId : Nat
  kind : String
  title : String
  body : String
  rideId : Option Nat
  deriving Repr, DecidableEq

/-- A row of the `history` table (append-only audit side effect). -/
structure HistoryEntry where
  userId : Nat
  rideId : Option Nat
  action : String
  deriving Repr, DecidableEq

/-- The relevant tables of the data store.  `nextId` models the id sequence
the store uses for freshly inserted `rides` / `ride_participants` rows. -/
structure DB where
  rides : List Ride
  participants : List Participant
  payments : List Payment
  rideCodes : List RideCode
  notifications : List Notification
  history : List HistoryEntry
  nextId : Nat
  deriving Repr, DecidableEq

/-- The store with no rows at all. -/
def emptyDB : DB := ⟨[], [], [], [], [], [], 0⟩

/-- The HTTP responses the modelled handlers can produce. -/
inductive Response where
  /-- 400 "Missing required fields". -/
  | missingFields
  /-- 404 "Ride not found". -/
  | rideNotFound
  /-- 400 "No seats available". -/
  | noSeats
  /-- 500 "Failed to join ride". -/
  | joinFailed
  /-- 500 "Failed to create ride". -/
  | createFailed
  /-- poll endpoint: `{status: "completed", rideId, userId}`. -/
  | sessionCompleted (rideId userId : Option Nat)
  /-- poll endpoint: `{status: session.payment_status}` when not paid. -/
  | sessionStatus (s : String)
  /-- 500 "Failed to retrieve session". -/
  | retrieveFailed
  /-- webhook endpoint: `{received: true}`. -/
  | webhookReceived
  /-- webhook endpoint: 400 "Webhook Error". -/
  | webhookError
  deriving Repr, DecidableEq

/-- The alphabet string of `generateRideCode` in `server.js`. -/
def rideCodeChars : String := "ABCDEFGHIJKLMNOPQRSTUVWXYZ0123456789"

/-- JavaScript `s.charAt(i)`: the one-character string at index `i`, or the
empty string when `i` is out of range. -/
def charAt (s : String) (i : Nat) : String :=
  match s.data.get? i with
  | some c => String.mk [c]
  | none => ""

/-- `generateRideCode(length)` from `server.js`: starting from the empty
string, `length` times append `chars.charAt(Math.floor(Math.random() * 36))`.
`rand i` is the integer produced by the i-th `Math.random()` call. -/
def generateRideCode (rand : Nat → Nat) (len : Nat) : String :=
  (List.range len).foldl (fun code i => code ++ charAt rideCodeChars (rand i)) ""

/-- JavaScript `x || d` on a nullable number: `null`/`undefined` and `0` are
falsy and give `d`. -/
def jsOr (x : Option Int) (d : Int) : Int :=
  match x with
  | none => d
  | some a => if a = 0 then d else a

/-- `createNotification` from `server.js`: inserts a notification row inside a
`try`/`catch` whose `catch` only logs.  `ok` says whether the insert
succeeds; on failure the store is unchanged and no error escapes. -/
def createNotification (db : DB) (ok : Bool) (userId : Nat)
    (kind title body : String) (rideId : Option Nat) : DB :=
  if ok then
    { db with notifications := db.notifications ++ [⟨userId, kind, title, body, rideId⟩] }
  else db

/-- `logUserAction` from `server.js`: inserts a history row inside a
`try`/`catch` whose `catch` only logs. -/
def logUserAction (db : DB) (ok : Bool) (userId : Nat) (action : String)
    (rideId : Option Nat) : DB :=
  if ok then
    { db with history := db.history ++ [⟨userId, rideId, action⟩] }
  else db

/-- The `rides` lookup of the join handler:
`.from("rides").select("*").eq("id", rideId).single()`.  This is the read
phase of the handler; everything after it happens on later event-loop turns. -/
def findRide (db : DB) (rideId : Nat) : Option Ride :=
  db.rides.find? (fun r => r.id == rideId)

/-- Business outcome of the write phase of the join handler. -/
inductive JoinStatus where
  | noSeats
  | insertError
  | ok
  deriving Repr, DecidableEq

/-- The write phase of `POST /api/rides/join`, acting on the snapshot
`rideData` obtained by `findRide`:
check `rideData.seats_left <= 0`; insert the participant row (the store
rejects it when the `UNIQUE(ride_id, user_id)` constraint is violated); then
`update rides set seats_left = rideData.seats_left - 1 where id = rideId` —
an unconditional write of the snapshot value minus one. -/
def joinCommit (db : DB) (rideData : Ride) (rideId userId : Nat)
    (joinCode : String) (amountDue : Option Int) : DB × JoinStatus :=
  if rideData.seatsLeft ≤ 0 then (db, .noSeats)
  else if db.participants.any (fun p => p.rideId == rideId && p.userId == userId) then
    (db, .insertError)
  else
    let newP : Participant :=
      { id := db.nextId, rideId := rideId, userId := userId, joinCode := joinCode,
        amountDue := some (jsOr amountDue rideData.pricePerSeat),
        amountPaid := 0, paid := false, stripeSessionId := none }
    let db1 := { db with participants := db.participants ++ [newP], nextId := db.nextId + 1 }
    let newRides := db1.rides.map
      (fun r => if r.id == rideId then { r with seatsLeft := rideData.seatsLeft - 1 } else r)
    let db2 := { db1 with rides := newRides }
    (db2, .ok)

/-- Body of a join request (`rideId` and `userId` are present, having passed
the handler's missing-field check; `amountDue` is optional). -/
structure JoinReq where
  rideId : Nat
  userId : Nat
  amountDue : Option Int
  deriving Repr, DecidableEq

/-- `POST /api/rides/join` from `server.js`, run to completion without
interleaving.  After the business writes it emits the "ride_joined"
notification, then calls `createHistoryEntry` — an identifier that is defined
nowhere in `server.js` (the defined helper is `logUserAction`), so the call
throws a `ReferenceError`; the handler's `catch` turns it into the
500 "Failed to join ride" response while the writes already awaited stay
committed. -/
def joinRide (db : DB) (req : JoinReq) (rand : Nat → Nat) (sinkOk : Bool) :
    DB × Response :=
  match findRide db req.rideId with
  | none => (db, .rideNotFound)
  | some rideData =>
    let joinCode := generateRideCode rand 8
    match joinCommit db rideData req.rideId req.userId joinCode req.amountDue with
    | (db1, .noSeats) => (db1, .noSeats)
    | (db1, .insertError) => (db1, .joinFailed)
    | (db1, .ok) =>
      let db2 := createNotification db1 sinkOk req.userId "ride_joined" "Joined Ride!"
        ("You have joined a ride from " ++ rideData.origin ++ " to " ++ rideData.destination ++ ".")
        (some req.rideId)
      (db2, .joinFailed)

/-- Body of a ride creation request.  String fields model the JavaScript
truthiness check (`""` is falsy); `totalSeats` keeps its numeric truthiness
check, which rejects `0` but accepts negative values. -/
structure RideCreateReq where
  userId : Nat
  title : String
  origin : String
  destination : String
  departureTime : String
  totalSeats : Int
  pricePerSeat : Int
  deriving Repr, DecidableEq

/-- `POST /api/rides/create` from `server.js`: validate, generate one display
code, insert the ride (`seats_left` initialised to `totalSeats`; the insert
errors when the UNIQUE `ride_code` column collides, failing the request with
no retry), insert the `ride_codes` row (result unchecked, silently skipped on
a unique violation), emit the "ride_created" notification, then call the
undefined `createHistoryEntry`, whose `ReferenceError` makes the `catch`
answer 500 "Failed to create ride" although the ride row is committed. -/
def createRide (db : DB) (req : RideCreateReq) (rand : Nat → Nat) (sinkOk : Bool) :
    DB × Response :=
  if req.title == "" || req.origin == "" || req.destination == "" ||
      req.departureTime == "" || req.totalSeats == 0 then
    (db, .missingFields)
  else
    let rideCode := generateRideCode rand 6
    if db.rides.any (fun r => r.rideCode == rideCode) then
      (db, .createFailed)
    else
      let rideId := db.nextId
      let newRide : Ride :=
        { id := rideId, createdBy := req.userId, title := req.title, origin := req.origin,
          destination := req.destination, departureTime := req.departureTime,
          totalSeats := req.totalSeats, seatsLeft := req.totalSeats,
          pricePerSeat := req.pricePerSeat, rideCode := rideCode, status := "active" }
      let db1 := { db with rides := db.rides ++ [newRide], nextId := db.nextId + 1 }
      let db2 :=
        if db1.rideCodes.any (fun rc => rc.rideId == rideId || rc.code == rideCode) then db1
        else { db1 with rideCodes := db1.rideCodes ++ [⟨rideId, rideCode⟩] }
      let db3 := createNotification db2 sinkOk req.userId "ride_created" "Ride Created!"
        ("Your ride from " ++ req.origin ++ " to " ++ req.destination ++ " is now live.")
        (some rideId)
      (db3, .createFailed)

/-- The data of a Stripe checkout session as the handlers read it:
`payment_status`, `payment_intent` and the `rideId`/`userId` metadata
(`none` models an absent/falsy metadata entry). -/
structure StripeSession where
  id : String
  paymentStatus : String
  paymentIntent : String
  rideId : Option Nat
  userId : Option Nat
  deriving Repr, DecidableEq

/-- The settlement block shared verbatim by the poll handler (lines 162-208)
and the webhook handler (lines 240-286) of `server.js`: look up the
participant for the session metadata (`single()` yields no row when the
metadata is absent); if present, mark it paid, mark the payments row of this
session completed, generate a fresh 6-character code and upsert it as the
ride's `ride_codes` row (keyed on the unique `ride_id`), then emit the
"payment_received" notification and the "payment" history entry.  Note that
no step reads or checks the Payment row's current status. -/
def applySettle (db : DB) (sessionId paymentIntent : String)
    (rideId userId : Option Nat) (rand : Nat → Nat) (sinkOk : Bool) : DB :=
  match rideId, userId with
  | some r, some u =>
    match db.participants.find? (fun p => p.rideId == r && p.userId == u) with
    | none => db
    | some participant =>
      let newParts := db.participants.map
        (fun q => if q.id == participant.id then
          { q with
              paid := true
              stripeSessionId := some sessionId
              amountPaid := jsOr participant.amountDue 0 }
        else q)
      let db1 := { db with participants := newParts }
      let newPays := db1.payments.map
        (fun pay => if pay.stripeSessionId == some sessionId then
          { pay with status := "completed", stripePaymentIntentId := some paymentIntent }
        else pay)
      let db2 := { db1 with payments := newPays }
      let rideCode := generateRideCode rand 6
      let newCodes :=
        if db2.rideCodes.any (fun rc => rc.rideId == r) then
          db2.rideCodes.map (fun rc => if rc.rideId == r then { rc with code := rideCode } else rc)
        else db2.rideCodes ++ [⟨r, rideCode⟩]
      let db3 := { db2 with rideCodes := newCodes }
      let db4 := createNotification db3 sinkOk u "payment_received" "Booking Confirmed!"
        ("Your ride code: " ++ rideCode ++ " - Use this to join the ride chat.") (some r)
      logUserAction db4 sinkOk u "payment" (some r)
  | _, _ => db

/-- `GET /api/stripe/session/:sessionId` from `server.js`.  `retrieve` models
`stripe.checkout.sessions.retrieve` (`none` = the call throws, answered by
the `catch` with a 500).  When the session reports `paid`, the settlement
block runs and the handler answers `{status: "completed"}` whether or not a
participant was found. -/
def pollSettle (db : DB) (sessionId : String)
    (retrieve : String → Option StripeSession) (rand : Nat → Nat) (sinkOk : Bool) :
    DB × Response :=
  match retrieve sessionId with
  | none => (db, .retrieveFailed)
  | some session =>
    if session.paymentStatus == "paid" then
      (applySettle db sessionId session.paymentIntent session.rideId session.userId rand sinkOk,
       .sessionCompleted session.rideId session.userId)
    else (db, .sessionStatus session.paymentStatus)

/-- A Stripe webhook event as produced by `constructEvent`. -/
structure StripeEvent where
  kind : String
  session : StripeSession
  deriving Repr, DecidableEq

/-- The body of the webhook handler after signature verification: on
`checkout.session.completed` with both metadata ids present (the
`if (rideId && userId)` guard) run the settlement block with `session.id`;
on `checkout.session.expired` mark the session's payments row `failed`. -/
def webhookEvent (db : DB) (event : StripeEvent) (rand : Nat → Nat) (sinkOk : Bool) : DB :=
  let db1 :=
    if event.kind == "checkout.session.completed" then
      match event.session.rideId, event.session.userId with
      | some _, some _ =>
        applySettle db event.session.id event.session.paymentIntent
          event.session.rideId event.session.userId rand sinkOk
      | _, _ => db
    else db
  if event.kind == "checkout.session.expired" then
    let failedPays := db1.payments.map
      (fun pay => if pay.stripeSessionId == some event.session.id then
        { pay with status := "failed" } else pay)
    { db1 with payments := failedPays }
  else db1

/-- `POST /api/stripe/webhook` from `server.js`.  `verify` models
`stripe.webhooks.constructEvent(body, sig, secret)`: it yields `none` when
the signature does not verify against the shared secret, in which case the
thrown error reaches the `catch`, which answers 400 "Webhook Error" before
any store access. -/
def webhookRoute (verify : String → String → String → Option StripeEvent)
    (db : DB) (body sig secret : String) (rand : Nat → Nat) (sinkOk : Bool) :
    DB × Response :=
  match verify body sig secret with
  | none => (db, .webhookError)
  | some event => (webhookEvent db event rand sinkOk, .webhookReceived)

/-- The seat-inventory invariant of the spec: every ride has
`0 ≤ seats_left ≤ total_seats` and its participant-row count equals
`total_seats - seats_left`. -/
def SeatInv (db : DB) : Prop :=
  ∀ r ∈ db.rides, 0 ≤ r.seatsLeft ∧ r.seatsLeft ≤ r.totalSeats ∧
    (db.participants.filter (fun p => p.rideId == r.id)).length = (r.totalSeats - r.seatsLeft).toNat

instance : DecidablePred SeatInv := by
  intro db
  unfold SeatInv
  infer_instance

/-- Well-formedness of the store: ride ids are pairwise distinct, and every
ride id and every participant's ride reference is below the id counter. -/
def WF (db : DB) : Prop :=
  (db.rides.map Ride.id).Nodup ∧
  (∀ r ∈ db.rides, r.id < db.nextId) ∧
  (∀ p ∈ db.participants, p.rideId < db.nextId)

/-- A sequential operation against the store: one ride-creation request or
one join request, each carrying its random stream and side-effect outcome. -/
inductive Op where
  | create (req : RideCreateReq) (rand : Nat → Nat) (sinkOk : Bool)
  | join (req : JoinReq) (rand : Nat → Nat) (sinkOk : Bool)

/-- Execute one operation, keeping the resulting store. -/
def applyOp (db : DB) : Op → DB
  | .create req rand ok => (createRide db req rand ok).1
  | .join req rand ok => (joinRide db req rand ok).1

/-- Execute a sequence of operations starting from the empty store. -/
def runOps (ops : List Op) : DB := ops.foldl applyOp emptyDB

/-- The requested seat count of a creation request is positive (join
requests are unconstrained). -/
def OpSeats : Op → Prop
  | .create req _ _ => 0 < req.totalSeats
  | .join _ _ _ => True

instance : DecidablePred OpSeats := fun op =>
  match op with
  | .create req _ _ => inferInstanceAs (Decidable (0 < req.totalSeats))
  | .join _ _ _ => inferInstanceAs (Decidable True)

/-! ## Concrete scenario states used by the counterexamples -/

/-- A two-seat active ride with one seat taken. -/
def c1Ride : Ride :=
  { id := 0, createdBy := 9, title := "T", origin := "O", destination := "D",
    departureTime := "DT", totalSeats := 2, seatsLeft := 1, pricePerSeat := 500,
    rideCode := "AAAAAA", status := "active" }

/-- Store state right after user 5 joined ride 0 and a pending payment row
for session `sess_1` was created. -/
def c1DB0 : DB :=
  { rides := [c1Ride],
    participants := [⟨1, 0, 5, "JJJJJJJJ", some 500, 0, false, none⟩],
    payments := [⟨5, 0, 500, "INR", some "sess_1", none, "pending"⟩],
    rideCodes := [⟨0, "AAAAAA"⟩], notifications := [], history := [], nextId := 2 }

/-- The provider reports session `sess_1` paid, with ride 0 / user 5 metadata. -/
def c1Sess : StripeSession := ⟨"sess_1", "paid", "pi_1", some 0, some 5⟩

/-- The store after the first settlement of `sess_1` (random stream constantly
2, so the generated access code is CCCCCC). -/
def c1DB1 : DB := (pollSettle c1DB0 "sess_1" (fun s => if s == "sess_1" then some c1Sess else none) (fun k => 2) true).1

/-- The store after a second settlement of the same session (random stream
constantly 1, so the freshly generated access code is BBBBBB). -/
def c1DB2 : DB := (pollSettle c1DB1 "sess_1" (fun s => if s == "sess_1" then some c1Sess else none) (fun k => 1) true).1

/-- A one-seat active ride. -/
def c2Ride : Ride :=
  { id := 0, createdBy := 9, title := "T", origin := "O", destination := "D",
    departureTime := "DT", totalSeats := 1, seatsLeft := 1, pricePerSeat := 300,
    rideCode := "AAAAAA", status := "active" }

/-- A store holding only the one-seat ride, with no participants. -/
def c2DB : DB :=
  { rides := [c2Ride], participants := [], payments := [],
    rideCodes := [], notifications := [], history := [], nextId := 1 }

/-- A two-seat active ride with both seats free. -/
def c3Ride : Ride :=
  { id := 0, createdBy := 9, title := "T", origin := "O", destination := "D",
    departureTime := "DT", totalSeats := 2, seatsLeft := 2, pricePerSeat := 400,
    rideCode := "AAAAAA", status := "active" }

/-- A store with a two-seat active ride and no participants. -/
def c3DB : DB :=
  { rides := [c3Ride], participants := [], payments := [], rideCodes := [],
    notifications := [], history := [], nextId := 1 }

/-- A well-formed join request from user 7 against ride 0 of `c3DB`. -/
def c3Res : DB × Response := joinRide c3DB ⟨0, 7, none⟩ (fun k => 3) true

/-- A creation request whose `totalSeats` is negative: it passes the
handler's truthiness validation, which only rejects a missing or zero
value. -/
def c4BadReq : RideCreateReq :=
  { userId := 1, title := "t", origin := "o", destination := "d",
    departureTime := "x", totalSeats := -1, pricePerSeat := 100 }

/-- A trace: create a two-seat ride, join it twice (the second join of user 5
is a duplicate and fails), fill the last seat, then overflow. -/
def c4Ops : List Op :=
  [Op.create ⟨1, "t", "o", "d", "x", 2, 500⟩ (fun k => 0) true,
   Op.join ⟨0, 5, none⟩ (fun k => 1) true,
   Op.join ⟨0, 5, none⟩ (fun k => 2) true,
   Op.join ⟨0, 6, none⟩ (fun k => 3) true,
   Op.join ⟨0, 7, none⟩ (fun k => 4) true]

/-- A store holding a pending payment for session `sess_2` but no participant
row for its (ride 0, user 5) metadata. -/
def c5DB : DB :=
  { rides := [c1Ride], participants := [],
    payments := [⟨5, 0, 500, "INR", some "sess_2", none, "pending"⟩],
    rideCodes := [], notifications := [], history := [], nextId := 2 }

/-- The provider reports session `sess_2` paid for ride 0 / user 5. -/
def c5Sess : StripeSession := ⟨"sess_2", "paid", "pi_2", some 0, some 5⟩

/-- Settlement of `sess_2` against `c5DB`. -/
def c5Res : DB × Response := pollSettle c5DB "sess_2" (fun s => some c5Sess) (fun k => 0) true

/-- A store with an unpaid participant row for (ride 0, user 5) and NO
payment row at all. -/
def c6DB : DB :=
  { rides := [c1Ride],
    participants := [⟨1, 0, 5, "JJJJJJJJ", some 500, 0, false, none⟩],
    payments := [], rideCodes := [], notifications := [], history := [], nextId := 2 }

/-- The provider reports session `sess_3` paid for ride 0 / user 5; no
payment row for `sess_3` exists in `c6DB`. -/
def c6Sess : StripeSession := ⟨"sess_3", "paid", "pi_3", some 0, some 5⟩

/-- Settlement of the unknown session `sess_3` against `c6DB`. -/
def c6Res : DB × Response := pollSettle c6DB "sess_3" (fun s => some c6Sess) (fun k => 0) true

/-- A cancelled ride that still has a seat left. -/
def c7Ride : Ride :=
  { id := 0, createdBy := 9, title := "T", origin := "O", destination := "D",
    departureTime := "DT", totalSeats := 3, seatsLeft := 1, pricePerSeat := 200,
    rideCode := "AAAAAA", status := "cancelled" }

/-- A store holding only the cancelled ride. -/
def c7DB : DB :=
  { rides := [c7Ride], participants := [], payments := [],
    rideCodes := [], notifications := [], history := [], nextId := 1 }

/-- User 4 joins the cancelled ride. -/
def c7Res : DB × Response := joinRide c7DB ⟨0, 4, none⟩ (fun k => 0) true

/-- A store already holding a ride whose display code is AAAAAA, the code the
constant-zero random stream generates. -/
def c8DB : DB :=
  { rides := [c1Ride], participants := [], payments := [],
    rideCodes := [⟨0, "AAAAAA"⟩], notifications := [], history := [], nextId := 2 }

/-- A valid creation request. -/
def c8Req : RideCreateReq :=
  { userId := 1, title := "t", origin := "o", destination := "d",
    departureTime := "x", totalSeats := 2, pricePerSeat := 100 }

/-! ## Helper lemmas about the side-effect sinks -/

@[simp]
theorem createNotification_rides (db : DB) (ok : Bool) (u : Nat) (k t b : String)
    (r : Option Nat) : (createNotification db ok u k t b r).rides = db.rides := by
  unfold createNotification; split <;> rfl

@[simp]
theorem createNotification_participants (db : DB) (ok : Bool) (u : Nat) (k t b : String)
    (r : Option Nat) : (createNotification db ok u k t b r).participants = db.participants := by
  unfold createNotification; split <;> rfl

@[simp]
theorem createNotification_payments (db : DB) (ok : Bool) (u : Nat) (k t b : String)
    (r : Option Nat) : (createNotification db ok u k t b r).payments = db.payments := by
  unfold createNotification; split <;> rfl

@[simp]
theorem createNotification_rideCodes (db : DB) (ok : Bool) (u : Nat) (k t b : String)
    (r : Option Nat) : (createNotification db ok u k t b r).rideCodes = db.rideCodes := by
  unfold createNotification; split <;> rfl

@[simp]
theorem createNotification_nextId (db : DB) (ok : Bool) (u : Nat) (k t b : String)
    (r : Option Nat) : (createNotification db ok u k t b r).nextId = db.nextId := by
  unfold createNotification; split <;> rfl

@[simp]
theorem logUserAction_rides (db : DB) (ok : Bool) (u : Nat) (a : String)
    (r : Option Nat) : (logUserAction db ok u a r).rides = db.rides := by
  unfold logUserAction; split <;> rfl

@[simp]
theorem logUserAction_participants (db : DB) (ok : Bool) (u : Nat) (a : String)
    (r : Option Nat) : (logUserAction db ok u a r).participants = db.participants := by
  unfold logUserAction; split <;> rfl

@[simp]
theorem logUserAction_payments (db : DB) (ok : Bool) (u : Nat) (a : String)
    (r : Option Nat) : (logUserAction db ok u a r).payments = db.payments := by
  unfold logUserAction; split <;> rfl

@[simp]
theorem logUserAction_rideCodes (db : DB) (ok : Bool) (u : Nat) (a : String)
    (r : Option Nat) : (logUserAction db ok u a r).rideCodes = db.rideCodes := by
  unfold logUserAction; split <;> rfl

@[simp]
theorem logUserAction_nextId (db : DB) (ok : Bool) (u : Nat) (a : String)
    (r : Option Nat) : (logUserAction db ok u a r).nextId = db.nextId := by
  unfold logUserAction; split <;> rfl

/-! ## Claim theorems -/

/-- C1: the settlement code performs no idempotent short-circuit.  Starting
from a store whose Payment row for `sess_1` is already `completed` after a
first settlement (`c1DB1`), a second settle invocation of the same session
identifier re-runs every effect: it appends a second `payment_received`
notification and overwrites the stored RideCode with a freshly generated one
(CCCCCC becomes BBBBBB), instead of being a no-op. -/
theorem settle_twice_not_idempotent :
    (∀ pay ∈ c1DB1.payments, pay.status = "completed") ∧
    c1DB1.notifications.length = 1 ∧
    c1DB1.rideCodes = [⟨0, "CCCCCC"⟩] ∧
    c1DB2.notifications.length = 2 ∧
    c1DB2.rideCodes = [⟨0, "BBBBBB"⟩] ∧
    c1DB2.participants = c1DB1.participants := by decide

/-- C2: the seat decrement is a read-then-write of a stale value, not a
conditional update.  With `seats_left = 1` and two distinct users whose join
handlers both pass their ride read (the two `findRide` conjuncts) before
either commits — a legal interleaving of the two handlers' await points —
BOTH commits succeed, leaving two participant rows on a one-seat ride with
`seats_left = 0`: an over-commit, where the claim demands exactly one success
and one SeatsExhausted failure. -/
theorem concurrent_join_overcommit :
    findRide c2DB 0 = some c2Ride ∧
    (joinCommit c2DB c2Ride 0 1 "CCCCCCCC" none).2 = JoinStatus.ok ∧
    (joinCommit (joinCommit c2DB c2Ride 0 1 "CCCCCCCC" none).1 c2Ride 0 2 "DDDDDDDD" none).2 =
      JoinStatus.ok ∧
    (joinCommit (joinCommit c2DB c2Ride 0 1 "CCCCCCCC" none).1 c2Ride 0 2 "DDDDDDDD" none).1.participants.length = 2 ∧
    ∃ r ∈ (joinCommit (joinCommit c2DB c2Ride 0 1 "CCCCCCCC" none).1 c2Ride 0 2 "DDDDDDDD" none).1.rides,
      r.totalSeats = 1 ∧ r.seatsLeft = 0 := by decide

/-- C3: the history side effect is not fire-and-forget.  A fully valid join
(ride exists, seats free, no duplicate) commits its business writes — the
participant row is inserted, `seats_left` drops to 1 — and the
`ride_joined` notification is recorded, yet the handler answers the
500 "Failed to join ride" error, because the history step calls the
undefined identifier `createHistoryEntry` and the resulting `ReferenceError`
lands in the handler's `catch`. -/
theorem join_history_failure_fails_request :
    c3Res.1.participants.length = 1 ∧
    (∃ r ∈ c3Res.1.rides, r.seatsLeft = 1) ∧
    c3Res.1.notifications.length = 1 ∧
    c3Res.2 = Response.joinFailed := by decide

/-- C4 counterexample: ride creation does not establish the seat invariant
for every ride.  The creation handler's validation keeps any non-zero
`totalSeats`, so the request `c4BadReq` with `totalSeats = -1` creates a ride
whose `seats_left` is `-1`, violating `0 ≤ seats_left`. -/
theorem create_negative_seats_invariant_cx :
    ¬ SeatInv (createRide emptyDB c4BadReq (fun k => 0) true).1 := by decide

/-- C5 counterexample: when the Participant row for the session's
(ride_id, user_id) is missing, settlement does NOT mark the Payment
`completed`: the handler skips the whole settlement block, so the Payment
row stays `pending`, while the handler still answers `completed`. -/
theorem settle_missing_participant_payment_stays_pending :
    c5Res.1 = c5DB ∧
    (∀ pay ∈ c5Res.1.payments, pay.status = "pending") ∧
    c5Res.2 = Response.sessionCompleted (some 0) (some 5) := by decide

/-- C6 counterexample: settling a session identifier that has no Payment row
does not signal UnknownSession and does mutate state.  The handler never
consults the payments table before acting: against `c6DB` (no payments at
all) it marks the Participant paid, creates a RideCode row and a
notification, and answers success. -/
theorem settle_no_payment_row_mutates_state :
    c6Res.1.payments = [] ∧
    (∃ q ∈ c6Res.1.participants, q.paid = true) ∧
    c6Res.1.rideCodes = [⟨0, "AAAAAA"⟩] ∧
    c6Res.1.notifications.length = 1 ∧
    c6Res.2 = Response.sessionCompleted (some 0) (some 5) := by decide

/-- C7 counterexample: the join handler never checks the ride's lifecycle
status.  Joining the cancelled ride of `c7DB` inserts a participant row and
decrements `seats_left` to 0, leaving the state changed although the claim
demands failure with no state change. -/
theorem join_cancelled_ride_changes_state :
    c7Res.1.participants.length = 1 ∧
    (∃ r ∈ c7Res.1.rides, r.status = "cancelled" ∧ r.seatsLeft = 0) ∧
    c7Res.1 ≠ c7DB := by decide

/-- C8 counterexample: a collision on the unique ride-code column fails the
creation outright.  `c8DB` already holds a ride with code AAAAAA, the code
the constant-zero stream generates; the handler returns the 500 error with
the store unchanged — no regeneration, no retry, no ride created. -/
theorem create_collision_fails_cx :
    createRide c8DB c8Req (fun k => 0) true = (c8DB, Response.createFailed) := by decide

/-- C9: a webhook request whose Stripe signature fails verification against
the shared secret is rejected with the 400 response before any store access:
the returned store is exactly the input store, so no Payment, Participant,
RideCode, notification, or history row is created or changed. -/
theorem webhook_invalid_signature_no_mutation
    (verify : String → String → String → Option StripeEvent) (db : DB)
    (body sig secret : String) (rand : Nat → Nat) (ok : Bool)
    (h : verify body sig secret = none) :
    webhookRoute verify db body sig secret rand ok = (db, Response.webhookError) := by
  simp [webhookRoute, h]

/-- Witness for C9 at a concrete verifier, store, and request. -/
theorem webhook_invalid_signature_no_mutation_witness :
    webhookRoute (fun b s k => none) emptyDB "body" "sig" "secret" (fun i => 0) true =
      (emptyDB, Response.webhookError) :=
  webhook_invalid_signature_no_mutation (fun b s k => none) emptyDB "body" "sig" "secret"
    (fun i => 0) true rfl

/-- C5 (amended): when a paid session's Participant row is missing, the
handler skips the entire settlement block — including the Payment status
update, so the Payment row is NOT marked `completed` and the store is
completely unchanged — while still reporting `completed` to the caller. -/
theorem settle_missing_participant_skips_all
    (db : DB) (sessionId : String) (retrieve : String → Option StripeSession)
    (rand : Nat → Nat) (ok : Bool) (s : StripeSession) (r u : Nat)
    (h1 : retrieve sessionId = some s) (h2 : s.paymentStatus = "paid")
    (h3 : s.rideId = some r) (h4 : s.userId = some u)
    (h5 : db.participants.find? (fun p => p.rideId == r && p.userId == u) = none) :
    pollSettle db sessionId retrieve rand ok =
      (db, Response.sessionCompleted (some r) (some u)) := by
  simp [pollSettle, h1, h2, applySettle, h3, h4, h5]

/-- Witness for the amended C5 at the concrete store `c5DB`. -/
theorem settle_missing_participant_skips_all_witness :
    pollSettle c5DB "sess_2" (fun s => some c5Sess) (fun k => 0) true =
      (c5DB, Response.sessionCompleted (some 0) (some 5)) :=
  settle_missing_participant_skips_all c5DB "sess_2" (fun s => some c5Sess) (fun k => 0)
    true c5Sess 0 5 rfl rfl rfl rfl (by decide)

/-- The ride-code upsert (keyed on the unique `ride_id`) always leaves a row
for the ride in the table. -/
theorem upsert_mem (l : List RideCode) (r : Nat) (c : String) :
    ∃ rc ∈ (if l.any (fun x => x.rideId == r) then
        l.map (fun x => if x.rideId == r then { x with code := c } else x)
      else l ++ [⟨r, c⟩]), rc.rideId = r := by
  split
  · rename_i h
    obtain ⟨x, hx, hxr⟩ := List.any_eq_true.mp h
    refine ⟨_, List.mem_map_of_mem _ hx, ?_⟩
    rw [if_pos hxr]
    simpa using hxr
  · exact ⟨⟨r, c⟩, List.mem_append_right _ (List.mem_singleton_self _), rfl⟩

/-- C6 (amended): settling a session identifier with no Payment row does not
signal UnknownSession — the handlers never consult the payments table before
acting.  No Payment row is ever created (the payments table stays empty),
but when the session metadata matches an existing Participant the handler
still marks that Participant paid and upserts a RideCode row, and answers
success. -/
theorem settle_no_payment_row_behaviour
    (db : DB) (sessionId : String) (retrieve : String → Option StripeSession)
    (rand : Nat → Nat) (ok : Bool) (s : StripeSession) (r u : Nat) (part : Participant)
    (h1 : retrieve sessionId = some s) (h2 : s.paymentStatus = "paid")
    (h3 : s.rideId = some r) (h4 : s.userId = some u)
    (h5 : db.participants.find? (fun p => p.rideId == r && p.userId == u) = some part)
    (h6 : db.payments = []) :
    (pollSettle db sessionId retrieve rand ok).1.payments = [] ∧
    (pollSettle db sessionId retrieve rand ok).2 =
      Response.sessionCompleted (some r) (some u) ∧
    (∃ q ∈ (pollSettle db sessionId retrieve rand ok).1.participants,
      q.id = part.id ∧ q.paid = true) ∧
    (∃ rc ∈ (pollSettle db sessionId retrieve rand ok).1.rideCodes, rc.rideId = r) := by
  have hmem := List.mem_of_find?_eq_some h5
  simp only [pollSettle, h1, h2, beq_self_eq_true, if_true, applySettle, h3, h4, h5]
  refine ⟨?_, ?_, ?_, ?_⟩
  · simp [h6]
  · trivial
  · simp only [createNotification_participants, logUserAction_participants]
    refine ⟨_, List.mem_map_of_mem _ hmem, ?_, ?_⟩ <;> simp
  · simp only [createNotification_rideCodes, logUserAction_rideCodes]
    exact upsert_mem _ _ _

/-- Witness for the amended C6 at the concrete store `c6DB`. -/
theorem settle_no_payment_row_behaviour_witness :
    (pollSettle c6DB "sess_3" (fun s => some c6Sess) (fun k => 0) true).1.payments = [] ∧
    (pollSettle c6DB "sess_3" (fun s => some c6Sess) (fun k => 0) true).2 =
      Response.sessionCompleted (some 0) (some 5) ∧
    (∃ q ∈ (pollSettle c6DB "sess_3" (fun s => some c6Sess) (fun k => 0) true).1.participants,
      q.id = 1 ∧ q.paid = true) ∧
    (∃ rc ∈ (pollSettle c6DB "sess_3" (fun s => some c6Sess) (fun k => 0) true).1.rideCodes,
      rc.rideId = 0) :=
  settle_no_payment_row_behaviour c6DB "sess_3" (fun s => some c6Sess) (fun k => 0) true
    c6Sess 0 5 ⟨1, 0, 5, "JJJJJJJJ", some 500, 0, false, none⟩ rfl rfl rfl rfl (by decide) rfl

/-- C7 (amended): the join handler checks only that the ride exists and has
`seats_left > 0`; it never reads the lifecycle status, so a join against a
ride whose status is NOT `active` still inserts the participant row and
decrements `seats_left` exactly as for an active ride. -/
theorem join_ignores_status (db : DB) (req : JoinReq) (rand : Nat → Nat) (ok : Bool)
    (rideData : Ride)
    (hfind : findRide db req.rideId = some rideData)
    (hstatus : rideData.status ≠ "active")
    (hseats : 0 < rideData.seatsLeft)
    (hdup : db.participants.any
      (fun p => p.rideId == req.rideId && p.userId == req.userId) = false) :
    (joinRide db req rand ok).1.participants.length = db.participants.length + 1 ∧
    ∃ r ∈ (joinRide db req rand ok).1.rides,
      r.id = rideData.id ∧ r.seatsLeft = rideData.seatsLeft - 1 := by
  have hfind' : db.rides.find? (fun r => r.id == req.rideId) = some rideData := hfind
  have hmem := List.mem_of_find?_eq_some hfind'
  have hpred : (rideData.id == req.rideId) = true := by
    have hp := List.find?_some hfind'
    simpa using hp
  have hns : ¬ rideData.seatsLeft ≤ 0 := by omega
  simp only [joinRide, hfind, joinCommit, if_neg hns, hdup, Bool.false_eq_true, if_false]
  constructor
  · simp
  · simp only [createNotification_rides]
    refine ⟨_, List.mem_map_of_mem _ hmem, ?_, ?_⟩ <;> rw [if_pos hpred]

/-- Witness for the amended C7 at the cancelled ride of `c7DB`. -/
theorem join_ignores_status_witness :
    (joinRide c7DB ⟨0, 4, none⟩ (fun k => 0) true).1.participants.length =
      c7DB.participants.length + 1 ∧
    ∃ r ∈ (joinRide c7DB ⟨0, 4, none⟩ (fun k => 0) true).1.rides,
      r.id = c7Ride.id ∧ r.seatsLeft = c7Ride.seatsLeft - 1 :=
  join_ignores_status c7DB ⟨0, 4, none⟩ (fun k => 0) true c7Ride (by decide) (by decide)
    (by decide) (by decide)

/-- C8 (amended): a collision on the unique ride-code column makes the
creation request fail immediately with the 500 error and leaves the store
untouched; there is no retry-with-regeneration, so under an always-colliding
store the handler trivially terminates after its single insert attempt. -/
theorem create_collision_no_retry (db : DB) (req : RideCreateReq) (rand : Nat → Nat)
    (ok : Bool)
    (h1 : req.title ≠ "") (h2 : req.origin ≠ "") (h3 : req.destination ≠ "")
    (h4 : req.departureTime ≠ "") (h5 : req.totalSeats ≠ 0)
    (hcol : db.rides.any (fun r => r.rideCode == generateRideCode rand 6) = true) :
    createRide db req rand ok = (db, Response.createFailed) := by
  simp [createRide, hcol, h1, h2, h3, h4, h5]

/-- Witness for the amended C8 at the colliding store `c8DB`. -/
theorem create_collision_no_retry_witness :
    createRide c8DB c8Req (fun k => 0) true = (c8DB, Response.createFailed) :=
  create_collision_no_retry c8DB c8Req (fun k => 0) true (by decide) (by decide)
    (by decide) (by decide) (by decide) (by decide)

/-! ## The code generator (C10) -/

theorem string_data_append (s t : String) : (s ++ t).data = s.data ++ t.data := by
  cases s; cases t; rfl

theorem string_length_append (s t : String) : (s ++ t).length = s.length + t.length := by
  cases s; cases t; simp [String.length, String.append]

/-- `charAt` at an in-range index yields a one-character string. -/
theorem charAt_length (s : String) (i : Nat) (h : i < s.data.length) :
    (charAt s i).length = 1 := by
  unfold charAt
  cases hg : s.data.get? i with
  | none =>
    have := List.get?_eq_none.mp hg
    omega
  | some c => rfl

/-- Every character of `charAt s i` is a character of `s`. -/
theorem charAt_mem (s : String) (i : Nat) (c : Char) (hc : c ∈ (charAt s i).data) :
    c ∈ s.data := by
  unfold charAt at hc
  cases hg : s.data.get? i with
  | none => rw [hg] at hc; simp at hc
  | some c0 =>
    rw [hg] at hc
    have hcc : c = c0 := by simpa using hc
    subst hcc
    exact List.get?_mem hg

/-- Every character of the generator's alphabet is an uppercase letter or a
digit. -/
theorem rideCodeChars_classify :
    ∀ c ∈ rideCodeChars.data, ('A' ≤ c ∧ c ≤ 'Z') ∨ ('0' ≤ c ∧ c ≤ '9') := by decide

/-- C10: for every length `L` and every random stream (each draw is
`Math.floor(Math.random() * 36)`, hence below 36), `generateRideCode`
returns a string of exactly `L` characters, each an uppercase letter A-Z or
a digit 0-9. -/
theorem generateRideCode_spec (rand : Nat → Nat) (L : Nat) (h : ∀ i, rand i < 36) :
    (generateRideCode rand L).length = L ∧
    ∀ c ∈ (generateRideCode rand L).data,
      ('A' ≤ c ∧ c ≤ 'Z') ∨ ('0' ≤ c ∧ c ≤ '9') := by
  have hlen : rideCodeChars.data.length = 36 := rfl
  induction L with
  | zero =>
    refine ⟨rfl, ?_⟩
    intro c hc
    simp [generateRideCode] at hc
  | succ n ih =>
    have hstep : generateRideCode rand (n + 1) =
        generateRideCode rand n ++ charAt rideCodeChars (rand n) := by
      unfold generateRideCode
      rw [List.range_succ, List.foldl_append]
      rfl
    refine ⟨?_, ?_⟩
    · rw [hstep, string_length_append, ih.1, charAt_length _ _ (by rw [hlen]; exact h n)]
    · rw [hstep, string_data_append]
      intro c hc
      rcases List.mem_append.mp hc with h1 | h2
      · exact ih.2 c h1
      · exact rideCodeChars_classify c (charAt_mem _ _ _ h2)

/-- Witness for C10 at length 4 and the constant-zero stream. -/
theorem generateRideCode_spec_witness :
    (generateRideCode (fun k => 0) 4).length = 4 ∧
    ∀ c ∈ (generateRideCode (fun k => 0) 4).data,
      ('A' ≤ c ∧ c ≤ 'Z') ∨ ('0' ≤ c ∧ c ≤ '9') :=
  generateRideCode_spec (fun k => 0) 4 (fun i => Nat.succ_pos 35)

/-! ## The seat invariant under sequential create/join traces (C4) -/

/-- Case analysis for ride creation: either the store is unchanged
(validation failure or code collision) or exactly one ride row with
`seats_left = totalSeats` was appended, with participants untouched and the
id counter advanced. -/
theorem createRide_cases (db : DB) (req : RideCreateReq) (rand : Nat → Nat) (ok : Bool) :
    (createRide db req rand ok).1 = db ∨
    ((createRide db req rand ok).1.rides = db.rides ++
        [{ id := db.nextId, createdBy := req.userId, title := req.title,
           origin := req.origin, destination := req.destination,
           departureTime := req.departureTime, totalSeats := req.totalSeats,
           seatsLeft := req.totalSeats, pricePerSeat := req.pricePerSeat,
           rideCode := generateRideCode rand 6, status := "active" }] ∧
      (createRide db req rand ok).1.participants = db.participants ∧
      (createRide db req rand ok).1.nextId = db.nextId + 1) := by
  unfold createRide
  split
  · exact Or.inl rfl
  · simp only []
    split
    · exact Or.inl rfl
    · right
      refine ⟨?_, ?_, ?_⟩ <;> split <;> simp

/-- Case analysis for a sequential join: either the store is unchanged (ride
absent, seats exhausted, or duplicate participant) or the ride was found
with a free seat, one participant row was appended, and the found ride's
`seats_left` was overwritten with the snapshot value minus one. -/
theorem joinRide_cases (db : DB) (req : JoinReq) (rand : Nat → Nat) (ok : Bool) :
    (joinRide db req rand ok).1 = db ∨
    ∃ rideData, findRide db req.rideId = some rideData ∧ 0 < rideData.seatsLeft ∧
      (joinRide db req rand ok).1.participants = db.participants ++
        [{ id := db.nextId, rideId := req.rideId, userId := req.userId,
           joinCode := generateRideCode rand 8,
           amountDue := some (jsOr req.amountDue rideData.pricePerSeat),
           amountPaid := 0, paid := false, stripeSessionId := none }] ∧
      (joinRide db req rand ok).1.rides = db.rides.map
        (fun r => if r.id == req.rideId then
          { r with seatsLeft := rideData.seatsLeft - 1 } else r) ∧
      (joinRide db req rand ok).1.nextId = db.nextId + 1 := by
  unfold joinRide
  cases hfind : findRide db req.rideId with
  | none => exact Or.inl rfl
  | some rideData =>
    unfold joinCommit
    simp only []
    by_cases hs : rideData.seatsLeft ≤ 0
    · left
      rw [if_pos hs]
    · by_cases hdup : db.participants.any
        (fun p => p.rideId == req.rideId && p.userId == req.userId) = true
      · left
        rw [if_neg hs, if_pos hdup]
      · right
        refine ⟨rideData, rfl, by omega, ?_, ?_, ?_⟩ <;>
          (rw [if_neg hs, if_neg hdup]; simp)

/-- Ride creation with a positive seat request preserves well-formedness and
the seat invariant. -/
theorem wf_inv_create (db : DB) (req : RideCreateReq) (rand : Nat → Nat) (ok : Bool)
    (hwf : WF db) (hinv : SeatInv db) (hpos : 0 < req.totalSeats) :
    WF (createRide db req rand ok).1 ∧ SeatInv (createRide db req rand ok).1 := by
  rcases createRide_cases db req rand ok with h | ⟨hr, hp, hn⟩
  · rw [h]; exact ⟨hwf, hinv⟩
  · constructor
    · refine ⟨?_, ?_, ?_⟩
      · rw [hr, List.map_append, List.nodup_append]
        refine ⟨hwf.1, List.nodup_singleton _, ?_⟩
        intro a ha hb
        simp only [List.map_cons, List.map_nil, List.mem_singleton] at hb
        obtain ⟨rr, hrr, hrid⟩ := List.mem_map.mp ha
        have := hwf.2.1 rr hrr
        omega
      · intro r hrm
        rw [hr] at hrm
        rw [hn]
        rcases List.mem_append.mp hrm with h1 | h2
        · have := hwf.2.1 r h1
          omega
        · simp only [List.mem_singleton] at h2
          subst h2
          simp
      · intro p hp2
        rw [hp] at hp2
        rw [hn]
        have := hwf.2.2 p hp2
        omega
    · intro r hrm
      rw [hr] at hrm
      rw [hp]
      rcases List.mem_append.mp hrm with h1 | h2
      · exact hinv r h1
      · simp only [List.mem_singleton] at h2
        subst h2
        refine ⟨by simpa using le_of_lt hpos, by simp, ?_⟩
        have hnil : db.participants.filter (fun p => p.rideId == db.nextId) = [] := by
          rw [List.filter_eq_nil_iff]
          intro p hpm
          have := hwf.2.2 p hpm
          simp
          omega
        simp only []
        rw [hnil]
        simp

/-- Filtering a one-element participant list keeps the element exactly when
its ride reference matches. -/
theorem filter_singleton_pos (x : Participant) (n : Nat) (h : x.rideId = n) :
    [x].filter (fun p => p.rideId == n) = [x] := by simp [h]

/-- Filtering a one-element participant list drops the element when its ride
reference differs. -/
theorem filter_singleton_neg (x : Participant) (n : Nat) (h : x.rideId ≠ n) :
    [x].filter (fun p => p.rideId == n) = [] := by simp [h]

/-- A sequential join preserves well-formedness and the seat invariant:
failed joins leave the store unchanged, and a successful join adds exactly
one participant row to the found ride while taking exactly one seat from
it. -/
theorem wf_inv_join (db : DB) (req : JoinReq) (rand : Nat → Nat) (ok : Bool)
    (hwf : WF db) (hinv : SeatInv db) :
    WF (joinRide db req rand ok).1 ∧ SeatInv (joinRide db req rand ok).1 := by
  rcases joinRide_cases db req rand ok with h | ⟨rideData, hfind, hseats, hp, hr, hn⟩
  · rw [h]; exact ⟨hwf, hinv⟩
  · have hfind' : db.rides.find? (fun r => r.id == req.rideId) = some rideData := hfind
    have hmem := List.mem_of_find?_eq_some hfind'
    have hid : rideData.id = req.rideId := by
      have hp2 := List.find?_some hfind'
      simpa using hp2
    have hridlt : req.rideId < db.nextId := hid ▸ hwf.2.1 rideData hmem
    constructor
    · refine ⟨?_, ?_, ?_⟩
      · rw [hr, List.map_map]
        have hcong : ∀ a ∈ db.rides, (Ride.id ∘ fun r => if r.id == req.rideId then
            { r with seatsLeft := rideData.seatsLeft - 1 } else r) a = Ride.id a := by
          intro a ha
          by_cases hc : (a.id == req.rideId) = true
          · simp [Function.comp, hc]
          · simp [Function.comp, hc]
        rw [List.map_congr_left hcong]
        exact hwf.1
      · intro r hrm
        rw [hr] at hrm
        rw [hn]
        obtain ⟨a, ha, rfl⟩ := List.mem_map.mp hrm
        have := hwf.2.1 a ha
        by_cases hc : (a.id == req.rideId) = true
        · rw [if_pos hc]
          simp only []
          omega
        · rw [if_neg hc]
          omega
      · intro p hpm
        rw [hp] at hpm
        rw [hn]
        rcases List.mem_append.mp hpm with h1 | h2
        · have := hwf.2.2 p h1
          omega
        · simp only [List.mem_singleton] at h2
          subst h2
          simp only []
          omega
    · intro r hrm
      rw [hr] at hrm
      rw [hp]
      obtain ⟨a, ha, rfl⟩ := List.mem_map.mp hrm
      obtain ⟨ha0, ha1, ha2⟩ := hinv a ha
      by_cases hc : (a.id == req.rideId) = true
      · have haid : a.id = req.rideId := by simpa using hc
        have haeq : a = rideData :=
          List.inj_on_of_nodup_map hwf.1 ha hmem (by rw [haid, hid])
        rw [if_pos hc]
        simp only []
        rw [List.filter_append, filter_singleton_pos _ _ (by simpa using haid.symm)]
        rw [List.length_append]
        subst haeq
        refine ⟨by omega, by omega, by simp; omega⟩
      · have haid : a.id ≠ req.rideId := by simpa using hc
        rw [if_neg hc]
        refine ⟨ha0, ha1, ?_⟩
        rw [List.filter_append, filter_singleton_neg _ _ (by simpa using haid.symm)]
        rw [List.append_nil]
        exact ha2

/-- Folding any list of operations whose creations all request positive seat
counts preserves well-formedness and the seat invariant. -/
theorem runOps_wf_inv_aux (ops : List Op) :
    ∀ db : DB, WF db → SeatInv db → (∀ op ∈ ops, OpSeats op) →
      WF (ops.foldl applyOp db) ∧ SeatInv (ops.foldl applyOp db) := by
  induction ops with
  | nil => intro db hwf hinv h; exact ⟨hwf, hinv⟩
  | cons op rest ih =>
    intro db hwf hinv h
    have hop := h op (List.mem_cons_self op rest)
    have hrest : ∀ o ∈ rest, OpSeats o := fun o ho => h o (List.mem_cons_of_mem op ho)
    rw [List.foldl_cons]
    cases op with
    | create req rand ok =>
      obtain ⟨hwf2, hinv2⟩ := wf_inv_create db req rand ok hwf hinv hop
      exact ih ((createRide db req rand ok).1) hwf2 hinv2 hrest
    | join req rand ok =>
      obtain ⟨hwf2, hinv2⟩ := wf_inv_join db req rand ok hwf hinv
      exact ih ((joinRide db req rand ok).1) hwf2 hinv2 hrest

/-- C4 (amended): restricted to creation requests with positive `totalSeats`
(the validation only rejects missing/zero values, so negative requests
violate the invariant — see the counterexample), every ride at every point
of a sequential create/join trace satisfies
`0 ≤ seats_left ≤ total_seats` with exactly `total_seats − seats_left`
participant rows; the invariant is established by creation and preserved by
every join, including failed ones. -/
theorem seat_invariant_of_positive_creates (ops : List Op)
    (h : ∀ op ∈ ops, OpSeats op) : SeatInv (runOps ops) := by
  refine (runOps_wf_inv_aux ops emptyDB ?_ ?_ h).2
  · exact ⟨List.nodup_nil, fun r hr => absurd hr (List.not_mem_nil r),
      fun p hp => absurd hp (List.not_mem_nil p)⟩
  · intro r hr
    exact absurd hr (List.not_mem_nil r)

/-- Witness for the amended C4 on the concrete five-step trace `c4Ops`
(create a two-seat ride; successful, duplicate, successful, and
seats-exhausted joins). -/
theorem seat_invariant_of_positive_creates_witness : SeatInv (runOps c4Ops) :=
  seat_invariant_of_positive_creates c4Ops (by decide)
